import Mathlib

/-!
Shallow embedding of the round-coordination and progress-reconciliation core of
the PretrainSubnet repository: group ordering for an averaging round, the
post-round checkpoint publication step, the save/upload retry loop, the
timeout cleanup path, the recovery loader, the round-due policy, the
group-formation polling loop, peer scoring, and the model-loading guard.
Each definition is translated from the named Python function; theorems settle
the frozen claims about those functions.
-/

namespace PretrainSubnet

/-! ### ModelLoadingManager (distributed_training/utils/state_loader.py, lines 19-39) -/

structure ModelLoadingManager where
  isLoading : Bool
  lastLoadedEpoch : Option Nat
deriving DecidableEq

/-- Embedding of ModelLoadingManager.set_loading_state: the flag is always
overwritten; the recorded epoch is overwritten only when the call clears the
flag and supplies an epoch. -/
def setLoadingState (m : ModelLoadingManager) (loading : Bool) (epoch : Option Nat) :
    ModelLoadingManager :=
  { isLoading := loading
    lastLoadedEpoch := if !loading && epoch.isSome then epoch else m.lastLoadedEpoch }

/-! ### Group ordering (template/validator/forward.py, perform_all_reduce, lines 112-126;
scripts/grad_averager_test.py, lines 140-146). Peer identifiers are modelled as their
integer xor_id values. -/

/-- Embedding of the ordering built in perform_all_reduce (line 117): the local
peer id followed by the filtered candidate ids in their given order. -/
def orderedPeerIds (selfPeerId : Nat) (groupPeerIds : List Nat) : List Nat :=
  selfPeerId :: groupPeerIds

/-- Embedding of the ordering built in grad_averager_test.py (lines 141-145):
the pooled peer ids sorted by their own xor_id value. -/
def testOrderedPeerIds (selfPeerId : Nat) (remotePeers : List Nat) : List Nat :=
  List.insertionSort (· ≤ ·) (selfPeerId :: remotePeers)

/-- The ordering the claim describes (from the spec wording, for comparison with
the source ordering): peers sorted by the xor of each peer id with the group id. -/
def xorDistanceOrdered (groupId : Nat) (peers : List Nat) : List Nat :=
  List.insertionSort (fun a b => Nat.xor a groupId ≤ Nat.xor b groupId) peers

/-! ### Post-round publication step (template/validator/forward.py, lines 301-314).
After a completed averaging step that changed the weights, the validator resets
gradients, advances local progress, re-reads the tag list of the store and pushes
only when the maximum existing tag is strictly below the advanced epoch. -/

/-- Embedding of `max([int(tag.name) for tag in refs.tags]) if refs.tags else None`
(line 311). -/
def maxTag : List Nat → Option Nat
  | [] => none
  | t :: ts => some (ts.foldl max t)

/-- Embedding of the push guard `(tag_name is not None) and tag_name < self.local_progress.epoch`
(line 314). -/
def shouldPush (tags : List Nat) (localEpoch : Nat) : Bool :=
  match maxTag tags with
  | none => false
  | some t => decide (t < localEpoch)

structure PublishStep where
  localEpoch : Nat
  samplesAccumulated : Nat
  pushAttempted : Bool
  loadedLatest : Bool
deriving DecidableEq

/-- Embedding of the success branch (lines 301-314): advance the local epoch,
zero the sample counter, re-read the tags and decide the push; when the push is
skipped nothing else happens in this step. The `samples` argument is the sample
counter before the round; the code overwrites it with zero. -/
def afterSuccessfulRound (tags : List Nat) (localEpoch samples : Nat) : PublishStep :=
  { localEpoch := localEpoch + 1
    samplesAccumulated := 0
    pushAttempted := shouldPush tags (localEpoch + 1)
    loadedLatest := false }

/-! ### save_and_upload_state retry loop (distributed_training/utils/state_loader.py,
lines 311-372). One attempt uploads the folder and then creates the tag; an
exception anywhere in the attempt discards it whole. The loop runs while
`attempt < retry_limit`; a failure increments `attempt` and, when the limit is
reached, re-raises; with a zero limit the loop body never runs and the function
falls through to `return False`. -/

structure AttemptOutcome where
  uploadOk : Bool
  tagCreated : Bool
deriving DecidableEq

/-- An attempt succeeds only when both the folder upload and the tag creation
succeed; a partially-completed attempt counts as failed. -/
def attemptSucceeds (a : AttemptOutcome) : Bool :=
  a.uploadOk && a.tagCreated

inductive PublishResult where
  | ok (attempt : Nat)
  | raised
  | returnedFalse
deriving DecidableEq

/-- The retry loop of save_and_upload_state, with `fuel = retryLimit - attempt`
iterations left. -/
def saveLoop (outcomes : Nat → AttemptOutcome) (retryLimit : Nat) : Nat → Nat → PublishResult
  | _, 0 => PublishResult.returnedFalse
  | attempt, fuel + 1 =>
    if attemptSucceeds (outcomes attempt) then PublishResult.ok attempt
    else if attempt + 1 < retryLimit then saveLoop outcomes retryLimit (attempt + 1) fuel
    else PublishResult.raised

/-- Embedding of save_and_upload_state over the sequence of attempt outcomes. -/
def saveAndUploadState (outcomes : Nat → AttemptOutcome) (retryLimit : Nat) : PublishResult :=
  saveLoop outcomes retryLimit 0 retryLimit

/-! ### Timeout cleanup (template/validator/forward.py, lines 356-368). When the
averaging handle is not done within the budget, the round is marked failed, the
latest state is loaded, cancel() is issued once on the handle and the optimizer
gradients are zeroed; the accumulated gradients of the gradient averager are
reset only in the success branch (line 302), not here. -/

structure AveragerState where
  accumulatedGrads : Nat
  optimizerGrads : Nat
  cancelCount : Nat
  localEpoch : Nat
  samplesAccumulated : Nat
deriving DecidableEq

/-- Embedding of the failed-all-reduce path: load_state_from_peer (line 359,
which on success adopts the global epoch and zeroes the sample counter), then
one cancel() on the handle (line 362) and opt.zero_grad() (line 365). -/
def handleFailedAllReduce (st : AveragerState) (globalEpoch : Option Nat) (loadOk : Bool) :
    AveragerState :=
  let st1 :=
    match globalEpoch, loadOk with
    | some g, true => { st with localEpoch := g, samplesAccumulated := 0 }
    | _, _ => st
  { st1 with cancelCount := st1.cancelCount + 1, optimizerGrads := 0 }

/-! ### Recovery loader (distributed_training/utils/state_loader.py,
load_state_from_peer, lines 207-273). -/

structure NodeProgress where
  globalEpoch : Option Nat
  localEpoch : Nat
  localSamples : Nat
deriving DecidableEq

/-- The revision passed to the model loader (state_loader.py lines 65-71):
`revision=str(epoch)` when `epoch` is truthy, the default branch otherwise. -/
def revisionOf : Option Nat → Option Nat
  | none => none
  | some e => if e = 0 then none else some e

structure LoadResult where
  progress : NodeProgress
  stateLoaded : Bool
  loadedRevision : Option Nat
deriving DecidableEq

/-- Embedding of load_state_from_peer: when no epoch argument is given the
global epoch is refreshed and used; the load happens when the tracked global
epoch is known, fetching the revision named by the epoch argument; on success
the local progress is reset to the global epoch with zero samples. `loadOk`
stands for the three-attempt model-loading loop succeeding rather than raising. -/
def loadStateFromPeer (st : NodeProgress) (fetchedGlobal : Option Nat)
    (epochArg : Option Nat) (loadOk : Bool) : LoadResult :=
  let st1 : NodeProgress :=
    match epochArg with
    | none => { st with globalEpoch := fetchedGlobal }
    | some _ => st
  let epoch : Option Nat :=
    match epochArg with
    | none => fetchedGlobal
    | some e => some e
  match st1.globalEpoch with
  | some g =>
    if loadOk then
      { progress := { globalEpoch := some g, localEpoch := g, localSamples := 0 }
        stateLoaded := true
        loadedRevision := revisionOf epoch }
    else
      { progress := st1, stateLoaded := false, loadedRevision := none }
  | none => { progress := st1, stateLoaded := false, loadedRevision := none }

/-! ### Recovery triggers on the routine progress check
(template/validator/forward.py lines 165-169;
distributed_training/validator/forward.py lines 44-49). -/

/-- Embedding of the template check: load only when the global epoch is known
and the local epoch is strictly behind it. -/
def templateRecoveryTrigger (localEpoch : Nat) (globalEpoch : Option Nat) : Bool :=
  match globalEpoch with
  | none => false
  | some g => decide (localEpoch < g)

/-- Embedding of the distributed_training check: load whenever the local epoch
differs from the tracked global epoch. -/
def distributedRecoveryTrigger (localEpoch : Nat) (globalEpoch : Option Nat) : Bool :=
  decide (some localEpoch ≠ globalEpoch)

/-! ### Round-due policy (distributed_training/validator/forward.py lines 51-54;
template/validator/forward.py line 172). -/

/-- Embedding of `self.block - self.last_allreduce_block` (line 52). -/
def blocksSinceAllreduce (block lastAllreduceBlock : Nat) : Nat :=
  block - lastAllreduceBlock

/-- Embedding of line 53: the configuration-based value assigned to
should_allreduce before it is overwritten. -/
def shouldAllreduceComputed (block lastAllreduceBlock blocksPerAllreduce : Nat) : Bool :=
  decide (blocksPerAllreduce ≤ blocksSinceAllreduce block lastAllreduceBlock)

/-- Embedding of line 54, which reassigns should_allreduce to True
unconditionally; this is the value the rest of forward uses. -/
def shouldAllreduce (block lastAllreduceBlock blocksPerAllreduce : Nat) : Bool :=
  true

/-- Embedding of the template decision (line 172):
`self.local_progress.samples_accumulated >= 25`. -/
def templateSynapseIsAllReduce (samplesAccumulated : Nat) : Bool :=
  decide (25 ≤ samplesAccumulated)

/-! ### Group-formation polling loop (distributed_training/validator/forward.py,
lines 73-82). miner_uids starts empty (line 57); each loop iteration replaces it
with a fresh poll of candidates; the loop runs while fewer than
min_group_size - 1 uids are held. -/

/-- The value of miner_uids after n iterations of the polling loop, where
`poll k` is the candidate list returned by the k-th call to get_random_uids. -/
def minerUidsIter (poll : Nat → List Nat) : Nat → List Nat
  | 0 => []
  | n + 1 => poll n

/-- Embedding of the loop guard `len(self.miner_uids) < (self.config.neuron.min_group_size - 1)`
(line 73). -/
def groupLoopGuard (minGroupSize : Nat) (minerUids : List Nat) : Bool :=
  decide (minerUids.length < minGroupSize - 1)

/-! ### Peer scoring (template/validator/reward.py, lines 67-85). -/

/-- Embedding of one entry of score_blacklist (lines 78-82): zero when the uid
does not resolve to a peer id, one when it does. -/
def scoreBlacklistEntry (resolvedPeerId : Option Nat) : ℚ :=
  if resolvedPeerId = none then 0 else 1

/-- Embedding of the final line of score_gradients (line 67):
`score = 1-(abs(gradients-response.gradients))`. -/
def scoreGradients (localGradientSum reportedGradients : ℚ) : ℚ :=
  1 - |localGradientSum - reportedGradients|

/-! ### Helper lemmas -/

theorem le_foldl_max (ts : List Nat) (a : Nat) :
    a ≤ ts.foldl max a ∧ ∀ t ∈ ts, t ≤ ts.foldl max a := by
  induction ts generalizing a with
  | nil => simp
  | cons b ts ih =>
    obtain ⟨h1, h2⟩ := ih (max a b)
    rw [List.foldl_cons]
    refine ⟨le_trans (le_max_left a b) h1, ?_⟩
    intro t ht
    rcases List.mem_cons.mp ht with rfl | ht
    · exact le_trans (le_max_right a t) h1
    · exact h2 t ht

theorem mem_le_of_maxTag {tags : List Nat} {m : Nat} (h : maxTag tags = some m) :
    ∀ t ∈ tags, t ≤ m := by
  cases tags with
  | nil => simp [maxTag] at h
  | cons a ts =>
    simp only [maxTag, Option.some.injEq] at h
    subst h
    intro t ht
    rcases List.mem_cons.mp ht with rfl | ht
    · exact (le_foldl_max ts t).1
    · exact (le_foldl_max ts a).2 t ht

theorem saveLoop_ok_spec (outcomes : Nat → AttemptOutcome) (retryLimit : Nat) :
    ∀ fuel attempt i : Nat,
      saveLoop outcomes retryLimit attempt fuel = PublishResult.ok i →
      attempt ≤ i ∧ i < attempt + fuel ∧ attemptSucceeds (outcomes i) = true
        ∧ ∀ j, attempt ≤ j → j < i → attemptSucceeds (outcomes j) = false := by
  intro fuel
  induction fuel with
  | zero => intro attempt i h; simp [saveLoop] at h
  | succ f ih =>
    intro attempt i h
    rw [saveLoop] at h
    by_cases hs : attemptSucceeds (outcomes attempt) = true
    · rw [if_pos hs] at h
      injection h with h
      subst h
      exact ⟨le_refl _, by omega, hs, fun j hj1 hj2 => absurd hj2 (Nat.not_lt.mpr hj1)⟩
    · rw [if_neg hs] at h
      have hsf : attemptSucceeds (outcomes attempt) = false := by
        cases hval : attemptSucceeds (outcomes attempt)
        · rfl
        · exact absurd hval hs
      by_cases hlt : attempt + 1 < retryLimit
      · rw [if_pos hlt] at h
        obtain ⟨h1, h2, h3, h4⟩ := ih (attempt + 1) i h
        refine ⟨by omega, by omega, h3, ?_⟩
        intro j hj1 hj2
        rcases Nat.eq_or_lt_of_le hj1 with rfl | hj
        · exact hsf
        · exact h4 j hj hj2
      · rw [if_neg hlt] at h
        exact absurd h (by simp)

theorem saveLoop_raised_spec (outcomes : Nat → AttemptOutcome) (retryLimit : Nat) :
    ∀ fuel attempt : Nat, attempt + fuel = retryLimit → attempt < retryLimit →
      (saveLoop outcomes retryLimit attempt fuel = PublishResult.raised
        ↔ ∀ i, attempt ≤ i → i < retryLimit → attemptSucceeds (outcomes i) = false) := by
  intro fuel
  induction fuel with
  | zero => intro attempt h1 h2; omega
  | succ f ih =>
    intro attempt h1 h2
    rw [saveLoop]
    by_cases hs : attemptSucceeds (outcomes attempt) = true
    · rw [if_pos hs]
      constructor
      · intro hcon; exact absurd hcon (by simp)
      · intro hall
        have hc := hall attempt (le_refl _) h2
        rw [hs] at hc
        exact absurd hc (by simp)
    · have hsf : attemptSucceeds (outcomes attempt) = false := by
        cases hval : attemptSucceeds (outcomes attempt)
        · rfl
        · exact absurd hval hs
      rw [if_neg hs]
      by_cases hlt : attempt + 1 < retryLimit
      · rw [if_pos hlt, ih (attempt + 1) (by omega) hlt]
        constructor
        · intro hall i hi1 hi2
          rcases Nat.eq_or_lt_of_le hi1 with rfl | hj
          · exact hsf
          · exact hall i (by omega) hi2
        · intro hall i hi1 hi2
          exact hall i (by omega) hi2
      · rw [if_neg hlt]
        constructor
        · intro _ i hi1 hi2
          have hi : i = attempt := by omega
          subst hi
          exact hsf
        · intro _; rfl

/-! ### Claims -/

/-- Claim C1 counterexample: in perform_all_reduce, two peers holding the same
filtered candidate list compute different final orderings (each puts its own id
first), and the ordering produced is not the xor-distance ordering the claim
describes. Refutes the claim at selfPeerId 1 versus 2 with candidates {3}, and
at selfPeerId 3 with candidate 2 under group id 0. -/
theorem c1_counterexample :
    orderedPeerIds 1 [3] ≠ orderedPeerIds 2 [3]
    ∧ orderedPeerIds 3 [2] ≠ xorDistanceOrdered 0 (orderedPeerIds 3 [2]) := by
  decide

/-- Claim C1 (amended): perform_all_reduce orders the group as the local peer id
followed by the candidates in given order, with no xor-distance sorting, so the
ordering is not reproduced identically across peers; only the standalone
grad_averager_test script sorts the pooled ids by their own xor_id, and that
ordering is identical for any two peers whose pooled peer lists hold the same
peers (are permutations of each other). -/
theorem c1_test_ordering_deterministic (selfA selfB : Nat) (peersA peersB : List Nat)
    (h : (selfA :: peersA).Perm (selfB :: peersB)) :
    testOrderedPeerIds selfA peersA = testOrderedPeerIds selfB peersB := by
  have hA := List.sorted_insertionSort (α := Nat) (· ≤ ·) (selfA :: peersA)
  have hB := List.sorted_insertionSort (α := Nat) (· ≤ ·) (selfB :: peersB)
  have hp : (List.insertionSort (· ≤ ·) (selfA :: peersA)).Perm
      (List.insertionSort (· ≤ ·) (selfB :: peersB)) :=
    ((List.perm_insertionSort _ _).trans h).trans (List.perm_insertionSort _ _).symm
  exact List.eq_of_perm_of_sorted hp hA hB

/-- Witness for the amended C1 theorem at a concrete permutation: the pools
{1, 3, 2} and {2, 1, 3} sort to the same ordering. -/
theorem c1_test_ordering_witness :
    testOrderedPeerIds 1 [3, 2] = testOrderedPeerIds 2 [1, 3] :=
  c1_test_ordering_deterministic 1 2 [3, 2] [1, 3] (by decide)

/-- Claim C2 counterexample: with existing tags [5] and a pre-round local epoch
of 4, the advanced epoch 5 collides with the maximum tag; the publisher does
abort the push, but it keeps the advanced local epoch (5) and does not load the
latest published state, contrary to the claim. -/
theorem c2_counterexample :
    (afterSuccessfulRound [5] 4 10).pushAttempted = false
    ∧ (afterSuccessfulRound [5] 4 10).localEpoch = 5
    ∧ (afterSuccessfulRound [5] 4 10).loadedLatest = false := by
  decide

/-- Claim C2 (amended): immediately before committing, the publisher re-reads
the tag list and attempts its push only when at least one tag exists and the
maximum tag is strictly below the advanced local epoch — hence a push is only
attempted with a tag strictly greater than every observed tag; on abort,
however, the local progress advance is kept and no latest state is loaded in
this step. -/
theorem c2_publish_collision (tags : List Nat) (localEpoch samples : Nat) :
    ((afterSuccessfulRound tags localEpoch samples).pushAttempted = true →
        ∀ t ∈ tags, t < (afterSuccessfulRound tags localEpoch samples).localEpoch)
    ∧ (afterSuccessfulRound tags localEpoch samples).localEpoch = localEpoch + 1
    ∧ (afterSuccessfulRound tags localEpoch samples).loadedLatest = false := by
  refine ⟨?_, rfl, rfl⟩
  intro hp t ht
  simp only [afterSuccessfulRound] at hp ⊢
  unfold shouldPush at hp
  cases hm : maxTag tags with
  | none => rw [hm] at hp; simp at hp
  | some m =>
    rw [hm] at hp
    simp only [decide_eq_true_eq] at hp
    exact lt_of_le_of_lt (mem_le_of_maxTag hm t ht) hp

/-- Claim C3: one attempt of save_and_upload_state counts as successful only
when both the upload and the tag creation succeed (a partially-completed
attempt is failed and retried from scratch); a successful result names an
attempt index below retry_limit whose predecessors all failed, so at most
retry_limit attempts are made; with a positive retry_limit, exhausting all
attempts re-raises the last error to the caller; only the degenerate
retry_limit = 0 configuration falls through to the `return False` line. -/
theorem c3_upload_retry_exhaustion (outcomes : Nat → AttemptOutcome) (retryLimit : Nat) :
    (∀ i, saveAndUploadState outcomes retryLimit = PublishResult.ok i →
        i < retryLimit ∧ attemptSucceeds (outcomes i) = true
          ∧ ∀ j < i, attemptSucceeds (outcomes j) = false)
    ∧ (1 ≤ retryLimit →
        (saveAndUploadState outcomes retryLimit = PublishResult.raised
          ↔ ∀ i < retryLimit, attemptSucceeds (outcomes i) = false))
    ∧ (retryLimit = 0 → saveAndUploadState outcomes retryLimit = PublishResult.returnedFalse) := by
  refine ⟨?_, ?_, ?_⟩
  · intro i h
    rw [saveAndUploadState] at h
    obtain ⟨h1, h2, h3, h4⟩ := saveLoop_ok_spec outcomes retryLimit retryLimit 0 i h
    exact ⟨by omega, h3, fun j hj => h4 j (Nat.zero_le _) hj⟩
  · intro hl
    rw [saveAndUploadState,
      saveLoop_raised_spec outcomes retryLimit retryLimit 0 (by omega) (by omega)]
    constructor
    · intro hall i hi; exact hall i (Nat.zero_le _) hi
    · intro hall i _ hi; exact hall i hi
  · intro h0
    subst h0
    rfl

/-- Claim C4 counterexample: a round whose handle never completed, entered with
7 units of accumulated gradient contribution, leaves the timeout handler with
cancel() issued once but with the 7 accumulated units intact — the accumulated
contribution is not reset, contrary to the claim. -/
theorem c4_counterexample :
    (handleFailedAllReduce ⟨7, 3, 0, 4, 10⟩ (some 4) true).cancelCount = 1
    ∧ (handleFailedAllReduce ⟨7, 3, 0, 4, 10⟩ (some 4) true).accumulatedGrads = 7 := by
  decide

/-- Claim C4 (amended): on a failed (for example timed-out) all-reduce the code
invokes cancel() on the handle exactly once and zeroes the optimizer gradients,
but the accumulated gradients of the gradient averager are left untouched —
only the success branch resets them — so leftover accumulated contribution can
persist into the next round. -/
theorem c4_timeout_handling (st : AveragerState) (globalEpoch : Option Nat) (loadOk : Bool) :
    (handleFailedAllReduce st globalEpoch loadOk).cancelCount = st.cancelCount + 1
    ∧ (handleFailedAllReduce st globalEpoch loadOk).optimizerGrads = 0
    ∧ (handleFailedAllReduce st globalEpoch loadOk).accumulatedGrads = st.accumulatedGrads := by
  cases globalEpoch <;> cases loadOk <;> simp [handleFailedAllReduce]

/-- Claim C5 counterexample: called with the explicit epoch argument 5 (as the
forward loop does after a round win) while the tracked global epoch is 4, the
load succeeds, fetches revision 5 — different from the current global epoch —
and resets the local epoch to 4, not to the loaded tag. -/
theorem c5_counterexample :
    (loadStateFromPeer ⟨some 4, 4, 7⟩ (some 9) (some 5) true).stateLoaded = true
    ∧ (loadStateFromPeer ⟨some 4, 4, 7⟩ (some 9) (some 5) true).loadedRevision = some 5
    ∧ (loadStateFromPeer ⟨some 4, 4, 7⟩ (some 9) (some 5) true).progress.globalEpoch = some 4
    ∧ (loadStateFromPeer ⟨some 4, 4, 7⟩ (some 9) (some 5) true).progress.localEpoch = 4 := by
  decide

/-- Claim C5 (amended): whenever the recovery load succeeds it has loaded the
revision named by its epoch argument — defaulting to the freshly refreshed
global epoch when the argument is omitted, and falling back to the default
branch when that epoch is 0 — and it resets local progress so that local.epoch
equals the tracked global epoch and local samples equal zero; the loaded tag
equals the current global epoch only in the default-argument case. -/
theorem c5_load_resets_progress (st : NodeProgress) (fetchedGlobal epochArg : Option Nat)
    (loadOk : Bool)
    (h : (loadStateFromPeer st fetchedGlobal epochArg loadOk).stateLoaded = true) :
    (loadStateFromPeer st fetchedGlobal epochArg loadOk).progress.localSamples = 0
    ∧ (loadStateFromPeer st fetchedGlobal epochArg loadOk).progress.globalEpoch
        = some (loadStateFromPeer st fetchedGlobal epochArg loadOk).progress.localEpoch
    ∧ (epochArg = none →
        (loadStateFromPeer st fetchedGlobal epochArg loadOk).loadedRevision
          = revisionOf fetchedGlobal)
    ∧ (∀ e, epochArg = some e →
        (loadStateFromPeer st fetchedGlobal epochArg loadOk).loadedRevision
          = revisionOf (some e)) := by
  obtain ⟨g0, l0, s0⟩ := st
  cases epochArg <;> cases loadOk <;> cases g0 <;> cases fetchedGlobal <;>
    simp_all [loadStateFromPeer]

/-- Witness for the amended C5 theorem: a successful load with explicit epoch
argument 5 under global epoch 4 ends with zero local samples and fetched
revision 5. -/
theorem c5_load_witness :
    (loadStateFromPeer ⟨some 4, 4, 7⟩ (some 9) (some 5) true).progress.localSamples = 0
    ∧ (loadStateFromPeer ⟨some 4, 4, 7⟩ (some 9) (some 5) true).loadedRevision
        = revisionOf (some 5) :=
  ⟨(c5_load_resets_progress ⟨some 4, 4, 7⟩ (some 9) (some 5) true rfl).1,
   (c5_load_resets_progress ⟨some 4, 4, 7⟩ (some 9) (some 5) true rfl).2.2.2 5 rfl⟩

/-- Claim C6 counterexample: in the distributed_training variant a local epoch
of 5 ahead of a global epoch of 4 does trigger a recovery load (the check is
inequality, not strictly-behind), while the template variant does not trigger. -/
theorem c6_counterexample :
    distributedRecoveryTrigger 5 (some 4) = true
    ∧ templateRecoveryTrigger 5 (some 4) = false := by
  decide

/-- Claim C6 (amended): the template variant invokes the recovery loader on the
routine check exactly when the global epoch is known and local.epoch is
strictly below it (a local epoch ahead does not trigger there), but the
distributed_training variant triggers whenever local.epoch differs from the
tracked global epoch, so a local epoch ahead of the global epoch does trigger a
recovery load in that variant. -/
theorem c6_recovery_trigger_conditions (localEpoch g : Nat) :
    (templateRecoveryTrigger localEpoch (some g) = true ↔ localEpoch < g)
    ∧ templateRecoveryTrigger localEpoch none = false
    ∧ (distributedRecoveryTrigger localEpoch (some g) = true ↔ localEpoch ≠ g) := by
  refine ⟨?_, rfl, ?_⟩ <;> simp [templateRecoveryTrigger, distributedRecoveryTrigger]

/-- Claim C7 counterexample: with zero blocks elapsed and a configured interval
of 100 (and no sample threshold in sight), the distributed variant still
declares a round due, because line 54 overwrites the computed decision with
True. -/
theorem c7_counterexample :
    shouldAllreduce 0 0 100 = true
    ∧ shouldAllreduceComputed 0 0 100 = false := by
  decide

/-- Claim C7 (amended): the distributed variant computes a config-based
decision (elapsed blocks at least blocks_per_allreduce, with no
accumulated-samples disjunct) and then unconditionally overrides it to true;
the template variant runs an all-reduce round exactly when the accumulated
local samples reach the hardcoded constant 25, with no elapsed-blocks
condition. -/
theorem c7_round_due_policy (block lastBlock blocksPerAllreduce samples : Nat) :
    shouldAllreduce block lastBlock blocksPerAllreduce = true
    ∧ (shouldAllreduceComputed block lastBlock blocksPerAllreduce = true
        ↔ blocksPerAllreduce ≤ blocksSinceAllreduce block lastBlock)
    ∧ (templateSynapseIsAllReduce samples = true ↔ 25 ≤ samples) := by
  refine ⟨rfl, ?_, ?_⟩ <;> simp [shouldAllreduceComputed, templateSynapseIsAllReduce]

/-- Claim C8 counterexample: with a candidate pool that always yields 2 uids
and min_group_size 5 (the scenario of the claim), the polling loop guard still
holds after one million iterations — no InsufficientPeers error has been
produced by then, where the claim promises termination after a bounded number
of retries. -/
theorem c8_counterexample :
    groupLoopGuard 5 (minerUidsIter (fun _ => [10, 11]) 1000000) = true := by
  decide

/-- Claim C8 (amended): the group-formation loop polls for more candidates
while fewer than min_group_size - 1 uids are held, with no retry bound and no
InsufficientPeers outcome: whenever every poll returns fewer than
min_group_size - 1 candidates the guard holds after every iteration, so the
loop never exits; conversely the loop can only exit with at least
min_group_size - 1 uids, so a group below the minimum (including self) is never
formed. -/
theorem c8_group_loop_unbounded (poll : Nat → List Nat) (minGroupSize n : Nat) :
    (groupLoopGuard minGroupSize (minerUidsIter poll n) = false →
        minGroupSize ≤ (minerUidsIter poll n).length + 1)
    ∧ ((∀ m, (poll m).length + 2 ≤ minGroupSize) →
        groupLoopGuard minGroupSize (minerUidsIter poll n) = true) := by
  constructor
  · intro h
    simp only [groupLoopGuard, decide_eq_false_iff_not, Nat.not_lt] at h
    omega
  · intro h
    cases n with
    | zero =>
      have h0 := h 0
      simp only [minerUidsIter, groupLoopGuard, List.length_nil, decide_eq_true_eq]
      omega
    | succ k =>
      have hk := h k
      simp only [minerUidsIter, groupLoopGuard, decide_eq_true_eq]
      omega

/-- Claim C9 counterexample: a miner response whose reported gradient sum is 5
while the local sum is 0 is scored 1 - |0 - 5| = -4, a negative score. -/
theorem c9_counterexample :
    scoreGradients 0 5 < 0 := by
  unfold scoreGradients
  rw [show |(0 : ℚ) - 5| = 5 by rw [abs_of_nonpos] <;> norm_num]
  norm_num

/-- Claim C9 (amended): blacklist scores are always 0 or 1, hence nonnegative,
but the gradient-difference score 1 - |local - reported| is nonnegative exactly
when the absolute difference is at most 1; responses whose reported sum differs
from the local sum by more than 1 receive a negative score. -/
theorem c9_score_sign (resolvedPeerId : Option Nat) (localSum reported : ℚ) :
    0 ≤ scoreBlacklistEntry resolvedPeerId
    ∧ (0 ≤ scoreGradients localSum reported ↔ |localSum - reported| ≤ 1) := by
  constructor
  · unfold scoreBlacklistEntry
    split <;> norm_num
  · unfold scoreGradients
    constructor <;> intro h <;> linarith

/-- Claim C10: set_loading_state always overwrites the is_loading flag, and
last_loaded_epoch changes only on a call that sets is_loading to false with a
non-null epoch; a call with is_loading true, or with the epoch omitted, leaves
last_loaded_epoch unchanged. -/
theorem c10_set_loading_state_frame (m : ModelLoadingManager) (loading : Bool)
    (epoch : Option Nat) :
    (setLoadingState m loading epoch).isLoading = loading
    ∧ (loading = true →
        (setLoadingState m loading epoch).lastLoadedEpoch = m.lastLoadedEpoch)
    ∧ (epoch = none →
        (setLoadingState m loading epoch).lastLoadedEpoch = m.lastLoadedEpoch)
    ∧ (∀ e, loading = false → epoch = some e →
        (setLoadingState m loading epoch).lastLoadedEpoch = some e) := by
  refine ⟨rfl, ?_, ?_, ?_⟩ <;> cases loading <;> cases epoch <;> simp [setLoadingState]

end PretrainSubnet
